import Mathlib

/-!
Verification of the image-preprocessing pipeline of the telegram-bot-az-function
repository (src/bots/img_processing.py, with the relevant orchestration fragment
of src/bots/cv_with_processing.py).

The embedding is shallow and symbolic: an OpenCV image (numpy ndarray) is a
`Mat`, an expression tree whose constructors record exactly which cv2 primitive
produced the buffer and with which arguments; width, height and channel count
are computed from the tree following the documented contracts of the cv2
primitives.  Python exceptions are `Except Err`.  The dynamic typing of Python
variables at the contrast-enhancement stage (where the variable `img` is
rebound from an ndarray to a CLAHE operator object) is captured by `PyVal`.
External primitives whose results depend on pixel content (the Hough line
detector, image decoding, PNG encoding) are parameters of the development,
collected in `Env`.

Angles are carried in degrees throughout: `cv2.HoughLines` yields theta in
radians, and the source immediately converts with `np.degrees`; a
`Line.thetaDeg` field holds that degree value directly, so no real-valued
trigonometry is needed for the control flow.  The numeric content of
`cv2.getRotationMatrix2D` is modelled over `ℚ` with the cosine and sine of the
angle passed as explicit parameters (`getRotationMatrix2D spec c s` where
`(c, s)` stands for `(cos spec.angleDeg°, sin spec.angleDeg°)`).
-/

/-- cv2.INTER_CUBIC flag value. -/
def INTER_CUBIC : Nat := 2

/-- cv2.BORDER_REPLICATE flag value. -/
def BORDER_REPLICATE : Nat := 1

/-- cv2.THRESH_BINARY flag value. -/
def THRESH_BINARY : Nat := 0

/-- cv2.THRESH_OTSU flag value. -/
def THRESH_OTSU : Nat := 8

/-- One detected line from cv2.HoughLines: the source destructures each row as
`rho, theta = line[0]` and only ever uses `np.degrees(theta)`, so the angle is
carried here in degrees. -/
structure Line where
  rho : ℚ
  thetaDeg : ℚ
deriving DecidableEq

/-- The arguments of a cv2.getRotationMatrix2D call: rotation center, angle in
degrees, isotropic scale.  The numeric 2x3 matrix is recovered by
`getRotationMatrix2D` below once the cosine and sine of the angle are
supplied. -/
structure RotSpec where
  cx : ℚ
  cy : ℚ
  angleDeg : ℚ
  scale : ℚ
deriving DecidableEq

/-- Symbolic OpenCV image buffer: each constructor records one cv2 primitive
application (or an input buffer).  `decoded` is the result of a successful
cv2.imdecode with IMREAD_COLOR (always 3 channels); `raw` is an arbitrary
in-memory buffer of given width, height and channel count. -/
inductive Mat where
  | raw (w h ch : Nat) (tag : Nat)
  | decoded (w h : Nat) (bytes : List Nat)
  | cvtGray (src : Mat)
  | canny (src : Mat) (lo hi aperture : Nat)
  | warpAffine (src : Mat) (spec : RotSpec) (dw dh : Nat) (interp border : Nat)
  | equalizeHist (src : Mat)
  | threshold (src : Mat) (thresh maxval ty : Nat)
  | denoise (src : Mat)
  | clahe (clip : ℚ) (gw gh : Nat) (src : Mat)
  | filter2D (src : Mat) (kernel : List (List Int))
  | dilate (src : Mat) (kw kh iters : Nat)
  | gaussianBlur (src : Mat) (kw kh : Nat) (sigma : ℚ)
deriving DecidableEq

/-- Width of a buffer, following the documented dimension contracts of the cv2
primitives: every stage preserves spatial size except warpAffine, whose output
size is the dsize argument. -/
def Mat.width : Mat → Nat
  | .raw w _ _ _ => w
  | .decoded w _ _ => w
  | .cvtGray m => m.width
  | .canny m _ _ _ => m.width
  | .warpAffine _ _ dw _ _ _ => dw
  | .equalizeHist m => m.width
  | .threshold m _ _ _ => m.width
  | .denoise m => m.width
  | .clahe _ _ _ m => m.width
  | .filter2D m _ => m.width
  | .dilate m _ _ _ => m.width
  | .gaussianBlur m _ _ _ => m.width

/-- Height of a buffer (same contracts as `Mat.width`). -/
def Mat.height : Mat → Nat
  | .raw _ h _ _ => h
  | .decoded _ h _ => h
  | .cvtGray m => m.height
  | .canny m _ _ _ => m.height
  | .warpAffine _ _ _ dh _ _ => dh
  | .equalizeHist m => m.height
  | .threshold m _ _ _ => m.height
  | .denoise m => m.height
  | .clahe _ _ _ m => m.height
  | .filter2D m _ => m.height
  | .dilate m _ _ _ => m.height
  | .gaussianBlur m _ _ _ => m.height

/-- Channel count of a buffer: imdecode with IMREAD_COLOR yields 3 channels,
BGR2GRAY conversion and Canny yield 1 channel, warpAffine and the pointwise /
morphological filters preserve the channel count of their input. -/
def Mat.channels : Mat → Nat
  | .raw _ _ ch _ => ch
  | .decoded _ _ _ => 3
  | .cvtGray _ => 1
  | .canny _ _ _ _ => 1
  | .warpAffine m _ _ _ _ _ => m.channels
  | .equalizeHist m => m.channels
  | .threshold m _ _ _ => m.channels
  | .denoise m => m.channels
  | .clahe _ _ _ m => m.channels
  | .filter2D m _ => m.channels
  | .dilate m _ _ _ => m.channels
  | .gaussianBlur m _ _ _ => m.channels

/-- Python exceptions that the modelled code can raise. -/
inductive Err where
  | invalidChannels
  | claheApplyNotMat
  | imwriteNotMat
deriving DecidableEq

/-- cv2.cvtColor with code COLOR_BGR2GRAY: requires a 3- or 4-channel source
(otherwise OpenCV raises cv2.error, "Invalid number of channels in input
image"); on success produces the single-channel luminance image. -/
def cvtColorBGR2GRAY (m : Mat) : Except Err Mat :=
  if m.channels = 3 ∨ m.channels = 4 then Except.ok (Mat.cvtGray m)
  else Except.error Err.invalidChannels

/-- A Python value held by a local variable in process_image_for_ocr: either an
ndarray (a `Mat`) or the CLAHE operator object returned by cv2.createCLAHE.
This captures the dynamic rebinding of the variable `img` at the
contrast-enhancement stage of the source. -/
inductive PyVal where
  | mat (m : Mat)
  | claheOp (clip : ℚ) (gw gh : Nat)
deriving DecidableEq

/-- The method call `self.apply(arg)` on a CLAHE operator: succeeds only when
`self` is a CLAHE operator and `arg` is an ndarray; applying the operator to a
non-array argument (for example to the operator object itself, as the source
does) raises a TypeError in the cv2 binding. -/
def claheApply (self arg : PyVal) : Except Err Mat :=
  match self, arg with
  | .claheOp clip gw gh, .mat m => Except.ok (Mat.clahe clip gw gh m)
  | _, _ => Except.error Err.claheApplyNotMat

/-- One persisted diagnostic snapshot: directory, timestamp string, stage
label and the written buffer.  The file name is derived exactly as the
source's f-string interpolation does. -/
structure Artifact where
  dir : String
  ts : String
  label : String
  img : Mat
deriving DecidableEq

/-- File name of an artifact, mirroring the source's interpolation of
timestamp and stage label with a ".png" extension. -/
def Artifact.filename (a : Artifact) : String :=
  a.ts ++ "_" ++ a.label ++ ".png"

/-- Full path of an artifact (os.path.join of directory and file name). -/
def Artifact.path (a : Artifact) : String :=
  a.dir ++ "/" ++ a.filename

/-- A successful cv2.imwrite of a valid ndarray, recorded as an artifact. -/
def mkArt (dir ts label : String) (m : Mat) : Artifact :=
  { dir := dir, ts := ts, label := label, img := m }

/-- cv2.imwrite where the image argument is an arbitrary Python value: writing
a non-ndarray (such as a CLAHE operator object) raises a TypeError. -/
def imwritePy (dir ts label : String) (v : PyVal) : Except Err Artifact :=
  match v with
  | .mat m => Except.ok (mkArt dir ts label m)
  | .claheOp _ _ _ => Except.error Err.imwriteNotMat

/-- cv2.imwrite where the image may be None (as after a failed cv2.imdecode):
writing None raises an error in the cv2 binding. -/
def imwriteOpt (dir ts label : String) (v : Option Mat) : Except Err Artifact :=
  match v with
  | some m => Except.ok (mkArt dir ts label m)
  | none => Except.error Err.imwriteNotMat

/-- External, pixel-content-dependent primitives, treated as parameters of the
development: the Hough line detector (cv2.HoughLines, returning None — here
`none` — when no line reaches the vote threshold), image decoding
(cv2.imdecode with IMREAD_COLOR, yielding the decoded width and height on
success and None on malformed bytes), and PNG encoding (cv2.imencode). -/
structure Env where
  hough : Mat → ℚ → ℚ → Nat → Option (List Line)
  decode : List Nat → Option (Nat × Nat)
  encodePNG : Mat → List Nat

/-- Insertion of a rational into a sorted list (helper for the median). -/
def insertSorted (x : ℚ) : List ℚ → List ℚ
  | [] => [x]
  | y :: ys => if x ≤ y then x :: y :: ys else y :: insertSorted x ys

/-- Insertion sort on rationals (helper for the median). -/
def sortQ : List ℚ → List ℚ
  | [] => []
  | x :: xs => insertSorted x (sortQ xs)

/-- np.median: sort the values; for an odd count take the middle element, for
an even count take the arithmetic mean of the two middle elements.  (np.median
of an empty array is NaN; the source only takes the median of a nonempty list,
and 0 is returned here in that vacuous case.) -/
def npMedian (l : List ℚ) : ℚ :=
  let s := sortQ l
  let n := l.length
  if n = 0 then 0
  else if n % 2 = 1 then s.getD (n / 2) 0
  else (s.getD (n / 2 - 1) 0 + s.getD (n / 2) 0) / 2

/-- The 2x3 affine matrix produced by cv2.getRotationMatrix2D, per its
documentation, with alpha = scale * cos(angle) and beta = scale * sin(angle);
`c` and `s` are the cosine and sine of `spec.angleDeg` degrees. -/
structure Affine23 where
  m11 : ℚ
  m12 : ℚ
  m13 : ℚ
  m21 : ℚ
  m22 : ℚ
  m23 : ℚ
deriving DecidableEq

/-- Numeric content of cv2.getRotationMatrix2D(center, angle, scale), given
the cosine `c` and sine `s` of the angle. -/
def getRotationMatrix2D (spec : RotSpec) (c s : ℚ) : Affine23 :=
  let alpha := spec.scale * c
  let beta := spec.scale * s
  { m11 := alpha, m12 := beta, m13 := (1 - alpha) * spec.cx - beta * spec.cy
  , m21 := -beta, m22 := alpha, m23 := beta * spec.cx + (1 - alpha) * spec.cy }

/-- Application of a 2x3 affine matrix to a point. -/
def applyAffine (M : Affine23) (p : ℚ × ℚ) : ℚ × ℚ :=
  (M.m11 * p.1 + M.m12 * p.2 + M.m13, M.m21 * p.1 + M.m22 * p.2 + M.m23)

/-- Rotation of a point about a center, in the image coordinate frame in which
the Hough angles are measured (x rightward, y downward, angles from the x axis
toward the y axis), with cosine `c` and sine `s` of the rotation angle. -/
def rotAbout (cx cy c s : ℚ) (p : ℚ × ℚ) : ℚ × ℚ :=
  (cx + c * (p.1 - cx) - s * (p.2 - cy), cy + s * (p.1 - cx) + c * (p.2 - cy))

/-- Where the content of the source image lands under cv2.warpAffine with
matrix M: warpAffine by default samples dst(x, y) = src(Minv(x, y)) (the
matrix is first inverted unless WARP_INVERSE_MAP is set), so the pixel at
source position q is displayed at position M(q). -/
def warpContentMap (M : Affine23) (q : ℚ × ℚ) : ℚ × ℚ :=
  applyAffine M q

/-- rotate_image_to_center from src/bots/img_processing.py: grayscale, Canny
edges, Hough lines; if no lines are detected return the input unchanged,
otherwise rotate the original input about its integer-division center by the
median of the normalized angles (degrees(theta) - 90), with cubic
interpolation, replicated borders and unchanged output size. -/
def rotate_image_to_center (env : Env) (img : Mat) : Except Err Mat :=
  match cvtColorBGR2GRAY img with
  | Except.error e => Except.error e
  | Except.ok gray =>
    let edges := Mat.canny gray 50 150 3
    match env.hough edges 1 1 200 with
    | some lines =>
      let angles := lines.map (fun l => l.thetaDeg - 90)
      let median_angle := npMedian angles
      let w := img.width
      let h := img.height
      let rotation_matrix : RotSpec :=
        { cx := ((w / 2 : Nat) : ℚ), cy := ((h / 2 : Nat) : ℚ)
        , angleDeg := median_angle, scale := 1 }
      Except.ok (Mat.warpAffine img rotation_matrix w h INTER_CUBIC BORDER_REPLICATE)
    | none => Except.ok img

/-- The 3x3 sharpening kernel of the source (center 9, neighbors -1). -/
def sharpenKernel : List (List Int) :=
  [[-1, -1, -1], [-1, 9, -1], [-1, -1, -1]]

/-- process_image_for_ocr from src/bots/img_processing.py, stage by stage.
After denoising, the source rebinds the variable `img` to the CLAHE operator
object returned by cv2.createCLAHE and then evaluates `img.apply(img)`,
applying the operator to itself; `claheApply` raises there, so the remaining
stages of the source are translated but unreachable.  Returns the artifacts
written so far together with the normal return value or the raised
exception. -/
def process_image_for_ocr (env : Env) (img0 : Mat) (output_dir ts : String) :
    List Artifact × Except Err Mat :=
  match rotate_image_to_center env img0 with
  | Except.error e => ([], Except.error e)
  | Except.ok imgRot =>
    match cvtColorBGR2GRAY imgRot with
    | Except.error e => ([], Except.error e)
    | Except.ok gray =>
      let a1 := mkArt output_dir ts "1_gray" gray
      let imgEq := Mat.equalizeHist gray
      let a2 := mkArt output_dir ts "21_threshold" imgEq
      let imgTh := Mat.threshold imgEq 0 255 (THRESH_BINARY + THRESH_OTSU)
      let a3 := mkArt output_dir ts "2_threshold" imgTh
      let imgDn := Mat.denoise imgTh
      let a4 := mkArt output_dir ts "3_denoised" imgDn
      let imgCl : PyVal := PyVal.claheOp 2 8 8
      match claheApply imgCl imgCl with
      | Except.error e => ([a1, a2, a3, a4], Except.error e)
      | Except.ok enhanced =>
        match imwritePy output_dir ts "4_enhanced" imgCl with
        | Except.error e => ([a1, a2, a3, a4], Except.error e)
        | Except.ok a5 =>
          let sharpened := Mat.filter2D enhanced sharpenKernel
          let a6 := mkArt output_dir ts "5_sharpened" sharpened
          let dilated := Mat.dilate sharpened 2 2 1
          let a7 := mkArt output_dir ts "6_dilated" dilated
          let final := Mat.gaussianBlur dilated 3 3 0
          let a8 := mkArt output_dir ts "7_final" final
          ([a1, a2, a3, a4, a5, a6, a7, a8], Except.ok enhanced)

/-- ensure_output_dir: the output directory name (created if missing — the
creation is an idempotent filesystem effect with no further observable
state). -/
def ensure_output_dir : String := "processed_images"

/-- A reading of the system clock at second resolution, as consumed by
datetime.now().strftime in the source. -/
structure Clock where
  year : Nat
  month : Nat
  day : Nat
  hour : Nat
  minute : Nat
  second : Nat
deriving DecidableEq

/-- One decimal digit character of n mod 10. -/
def digitChar (n : Nat) : Char :=
  List.getD ['0', '1', '2', '3', '4', '5', '6', '7', '8', '9'] (n % 10) '0'

/-- Zero-padded two-digit decimal rendering (the strftime %m, %d, %H, %M, %S
fields, whose values from datetime.now are below 100). -/
def pad2 (n : Nat) : String :=
  String.mk [digitChar (n / 10), digitChar n]

/-- Zero-padded four-digit decimal rendering (the strftime %Y field, whose
value from datetime.now is below 10000). -/
def pad4 (n : Nat) : String :=
  String.mk [digitChar (n / 1000), digitChar (n / 100), digitChar (n / 10), digitChar n]

/-- datetime.now().strftime with format %Y%m%d_%H%M%S. -/
def strftime_Ymd_HMS (c : Clock) : String :=
  pad4 c.year ++ pad2 c.month ++ pad2 c.day ++ "_" ++
    pad2 c.hour ++ pad2 c.minute ++ pad2 c.second

/-- The timestamp shape YYYYMMDD_HHMMSS: eight decimal digits, an underscore,
six decimal digits. -/
def timestampFormatOk (s : String) : Prop :=
  ∃ l1 l2 : List Char, s.data = l1 ++ '_' :: l2 ∧ l1.length = 8 ∧ l2.length = 6 ∧
    (∀ c ∈ l1, c.isDigit) ∧ (∀ c ∈ l2, c.isDigit)

/-- download_and_preprocess_image from src/bots/img_processing.py: decode the
fetched bytes with IMREAD_COLOR (`content` stands for response.content),
write the original artifact (cv2.imwrite raises if the decode produced None),
run the enhancement pipeline, and PNG-encode the returned image.  Returns the
artifacts written before any raise, together with the encoded buffer or the
raised exception. -/
def download_and_preprocess_image (env : Env) (content : List Nat) (now : Clock) :
    List Artifact × Except Err (List Nat) :=
  let output_dir := ensure_output_dir
  let timestamp := strftime_Ymd_HMS now
  let original_img : Option Mat :=
    (env.decode content).map (fun wh => Mat.decoded wh.1 wh.2 content)
  match imwriteOpt output_dir timestamp "original" original_img with
  | Except.error e => ([], Except.error e)
  | Except.ok aOrig =>
    match original_img with
    | none => ([], Except.error Err.imwriteNotMat)
    | some original_mat =>
      let pr := process_image_for_ocr env original_mat output_dir timestamp
      match pr.2 with
      | Except.error e => (aOrig :: pr.1, Except.error e)
      | Except.ok processed => (aOrig :: pr.1, Except.ok (env.encodePNG processed))

/-- The OCR submission chosen by handle_photo in
src/bots/cv_with_processing.py: either the preprocessed byte stream
(computervision_client.read_in_stream) or, on any preprocessing exception,
the original photo URL (computervision_client.read). -/
inductive OcrRequest where
  | readInStream (buffer : List Nat)
  | readUrl (url : String)
deriving DecidableEq

/-- The preprocessing-and-fallback fragment of handle_photo: the call to
download_and_preprocess_image is wrapped in try/except; any exception makes
processed_image None and the original photo URL is submitted instead.
`content` stands for the bytes fetched from `photo_url`. -/
def handle_photo (env : Env) (photo_url : String) (content : List Nat)
    (now : Clock) : OcrRequest :=
  match (download_and_preprocess_image env content now).2 with
  | Except.ok buf => OcrRequest.readInStream buf
  | Except.error _ => OcrRequest.readUrl photo_url

/-- The stage labels appearing in the source's artifact-writing calls. -/
def stageLabels : List String :=
  ["original", "1_gray", "21_threshold", "2_threshold", "3_denoised",
   "4_enhanced", "5_sharpened", "6_dilated", "7_final"]

/-- The stage labels a run actually persists before the raise at the
contrast-enhancement stage. -/
def writtenLabels : List String :=
  ["original", "1_gray", "21_threshold", "2_threshold", "3_denoised"]

/-- Projection of an artifact that forgets the timestamp (and the constant
directory): stage label and written buffer. -/
def stripTimestamp (a : Artifact) : String × Mat :=
  (a.label, a.img)

/-- Boolean success test for an Except value. -/
def exceptIsOk {ε α : Type} : Except ε α → Bool
  | Except.ok _ => true
  | Except.error _ => false

/-- A concrete environment in which the Hough transform detects no lines and
nonempty byte lists decode to a 4x4 color image. -/
def houghNoneEnv : Env :=
  { hough := fun _ _ _ _ => none
  , decode := fun b => if b = [] then none else some (4, 4)
  , encodePNG := fun _ => [137, 80, 78, 71] }

/-- A concrete environment in which the Hough transform detects one line of
theta 95 degrees. -/
def houghOneEnv : Env :=
  { hough := fun _ _ _ _ => some [{ rho := 0, thetaDeg := 95 }]
  , decode := fun b => if b = [] then none else some (4, 4)
  , encodePNG := fun _ => [137, 80, 78, 71] }

/-- A concrete environment in which the Hough transform detects four lines of
theta 91, 92, 93 and 178 degrees — document lines inclined at 1, 2, 3 and 88
degrees from horizontal. -/
def houghFourEnv : Env :=
  { hough := fun _ _ _ _ => some
      [{ rho := 1, thetaDeg := 91 }, { rho := 1, thetaDeg := 92 },
       { rho := 1, thetaDeg := 93 }, { rho := 1, thetaDeg := 178 }]
  , decode := fun b => if b = [] then none else some (4, 4)
  , encodePNG := fun _ => [137, 80, 78, 71] }

/-- A fixed clock value for concrete runs. -/
def demoClock : Clock :=
  { year := 2024, month := 1, day := 2, hour := 3, minute := 4, second := 5 }

/-- A second fixed clock value, distinct from demoClock. -/
def demoClock2 : Clock :=
  { year := 2025, month := 6, day := 7, hour := 8, minute := 9, second := 10 }

/-! ## Helper lemmas -/

/-- cv2.cvtColor BGR2GRAY succeeds on a 3-channel image. -/
lemma cvtColor_ok_of_three (m : Mat) (h : m.channels = 3) :
    cvtColorBGR2GRAY m = Except.ok (Mat.cvtGray m) := by
  simp [cvtColorBGR2GRAY, h]

/-- With a 3-channel input and no detected lines, the orientation corrector
returns its input. -/
lemma rotate_none_eq (env : Env) (img : Mat) (h : img.channels = 3)
    (hh : env.hough (Mat.canny (Mat.cvtGray img) 50 150 3) 1 1 200 = none) :
    rotate_image_to_center env img = Except.ok img := by
  simp [rotate_image_to_center, cvtColor_ok_of_three img h, hh]

/-- With a 3-channel input and detected lines, the orientation corrector
returns the warpAffine of the original input with the rotation parameters of
the source: integer-division center, median of the normalized angles as the
angle, unit scale, input-sized output, cubic interpolation, replicated
border. -/
lemma rotate_some_eq (env : Env) (img : Mat) (ls : List Line) (h : img.channels = 3)
    (hh : env.hough (Mat.canny (Mat.cvtGray img) 50 150 3) 1 1 200 = some ls) :
    rotate_image_to_center env img =
      Except.ok (Mat.warpAffine img
        { cx := ((img.width / 2 : Nat) : ℚ), cy := ((img.height / 2 : Nat) : ℚ)
        , angleDeg := npMedian (ls.map (fun l => l.thetaDeg - 90)), scale := 1 }
        img.width img.height INTER_CUBIC BORDER_REPLICATE) := by
  simp [rotate_image_to_center, cvtColor_ok_of_three img h, hh]

/-- On a 3-channel input the orientation corrector succeeds and preserves
width, height and channel count, whatever the line detector reports. -/
lemma rotate_ok_three (env : Env) (img : Mat) (h : img.channels = 3) :
    ∃ r, rotate_image_to_center env img = Except.ok r ∧
      r.width = img.width ∧ r.height = img.height ∧ r.channels = img.channels := by
  cases hh : env.hough (Mat.canny (Mat.cvtGray img) 50 150 3) 1 1 200 with
  | none => exact ⟨img, rotate_none_eq env img h hh, rfl, rfl, rfl⟩
  | some ls =>
    refine ⟨_, rotate_some_eq env img ls h hh, rfl, rfl, rfl⟩

/-- Shape of a run of the enhancement pipeline on a 3-channel input: exactly
the four artifacts up to the denoised stage are written, and the run raises
the TypeError of the CLAHE-operator-applied-to-itself slip. -/
lemma process_shape (env : Env) (img : Mat) (dir ts : String) (h : img.channels = 3) :
    ∃ r, rotate_image_to_center env img = Except.ok r ∧ r.channels = 3 ∧
      process_image_for_ocr env img dir ts =
        ([mkArt dir ts "1_gray" (Mat.cvtGray r),
          mkArt dir ts "21_threshold" (Mat.equalizeHist (Mat.cvtGray r)),
          mkArt dir ts "2_threshold"
            (Mat.threshold (Mat.equalizeHist (Mat.cvtGray r)) 0 255 (THRESH_BINARY + THRESH_OTSU)),
          mkArt dir ts "3_denoised"
            (Mat.denoise (Mat.threshold (Mat.equalizeHist (Mat.cvtGray r)) 0 255 (THRESH_BINARY + THRESH_OTSU)))],
         Except.error Err.claheApplyNotMat) := by
  obtain ⟨r, hr, _, _, hc⟩ := rotate_ok_three env img h
  rw [h] at hc
  refine ⟨r, hr, hc, ?_⟩
  simp [process_image_for_ocr, hr, cvtColor_ok_of_three r hc, claheApply]

/-- Shape of a full orchestrator run on bytes that decode: the original plus
the four pipeline artifacts are written and the run raises at the
contrast-enhancement stage. -/
lemma download_shape (env : Env) (content : List Nat) (now : Clock) (w h : Nat)
    (hd : env.decode content = some (w, h)) :
    ∃ r, rotate_image_to_center env (Mat.decoded w h content) = Except.ok r ∧
      download_and_preprocess_image env content now =
        ([mkArt ensure_output_dir (strftime_Ymd_HMS now) "original" (Mat.decoded w h content),
          mkArt ensure_output_dir (strftime_Ymd_HMS now) "1_gray" (Mat.cvtGray r),
          mkArt ensure_output_dir (strftime_Ymd_HMS now) "21_threshold" (Mat.equalizeHist (Mat.cvtGray r)),
          mkArt ensure_output_dir (strftime_Ymd_HMS now) "2_threshold"
            (Mat.threshold (Mat.equalizeHist (Mat.cvtGray r)) 0 255 (THRESH_BINARY + THRESH_OTSU)),
          mkArt ensure_output_dir (strftime_Ymd_HMS now) "3_denoised"
            (Mat.denoise (Mat.threshold (Mat.equalizeHist (Mat.cvtGray r)) 0 255 (THRESH_BINARY + THRESH_OTSU)))],
         Except.error Err.claheApplyNotMat) := by
  obtain ⟨r, hr, hc, hp⟩ :=
    process_shape env (Mat.decoded w h content) ensure_output_dir (strftime_Ymd_HMS now) rfl
  refine ⟨r, hr, ?_⟩
  simp [download_and_preprocess_image, hd, imwriteOpt, hp, mkArt]

/-- On bytes that do not decode, the orchestrator writes nothing and raises
at the cv2.imwrite of the None image. -/
lemma download_none_eq (env : Env) (content : List Nat) (now : Clock)
    (hd : env.decode content = none) :
    download_and_preprocess_image env content now = ([], Except.error Err.imwriteNotMat) := by
  simp [download_and_preprocess_image, hd, imwriteOpt]

/-- Every digit character rendered by digitChar is a decimal digit. -/
lemma digitChar_isDigit (n : Nat) : (digitChar n).isDigit = true := by
  unfold digitChar
  have h : n % 10 < 10 := Nat.mod_lt n (by norm_num)
  generalize hm : n % 10 = m at h ⊢
  interval_cases m <;> decide

/-- The strftime output has the YYYYMMDD_HHMMSS shape for every clock
reading. -/
lemma strftime_format_ok (c : Clock) : timestampFormatOk (strftime_Ymd_HMS c) := by
  refine ⟨[digitChar (c.year / 1000), digitChar (c.year / 100), digitChar (c.year / 10),
           digitChar c.year, digitChar (c.month / 10), digitChar c.month,
           digitChar (c.day / 10), digitChar c.day],
          [digitChar (c.hour / 10), digitChar c.hour, digitChar (c.minute / 10),
           digitChar c.minute, digitChar (c.second / 10), digitChar c.second],
          rfl, rfl, rfl, ?_, ?_⟩
  · intro ch hch
    simp only [List.mem_cons, List.not_mem_nil, or_false] at hch
    rcases hch with rfl | rfl | rfl | rfl | rfl | rfl | rfl | rfl <;> exact digitChar_isDigit _
  · intro ch hch
    simp only [List.mem_cons, List.not_mem_nil, or_false] at hch
    rcases hch with rfl | rfl | rfl | rfl | rfl | rfl <;> exact digitChar_isDigit _

/-! ## Claim theorems -/

/-- C1: for every input image that the orchestrator decodes,
process_image_for_ocr raises at the local-contrast-enhancement stage — the
variable holding the denoised image is rebound to the CLAHE operator and the
operator is applied to itself — so the run never returns normally, and only
the original, 1_gray, 21_threshold, 2_threshold and 3_denoised artifacts are
persisted; 4_enhanced, 5_sharpened, 6_dilated and 7_final are never
written. -/
theorem download_fails_at_clahe_with_five_artifacts (env : Env) (content : List Nat)
    (now : Clock) (w h : Nat) (hd : env.decode content = some (w, h)) :
    (download_and_preprocess_image env content now).1.map (fun a => a.label) =
      ["original", "1_gray", "21_threshold", "2_threshold", "3_denoised"] ∧
    (download_and_preprocess_image env content now).2 =
      Except.error Err.claheApplyNotMat := by
  obtain ⟨r, _, hdl⟩ := download_shape env content now w h hd
  rw [hdl]
  exact ⟨rfl, rfl⟩

/-- Witness for C1: a concrete run on bytes that decode to a 4x4 color image
persists exactly the five artifacts and raises the CLAHE TypeError. -/
theorem download_fails_at_clahe_witness :
    houghNoneEnv.decode [1] = some (4, 4) ∧
    ((download_and_preprocess_image houghNoneEnv [1] demoClock).1.map (fun a => a.label) =
      ["original", "1_gray", "21_threshold", "2_threshold", "3_denoised"] ∧
     (download_and_preprocess_image houghNoneEnv [1] demoClock).2 =
      Except.error Err.claheApplyNotMat) :=
  ⟨by decide, download_fails_at_clahe_with_five_artifacts houghNoneEnv [1] demoClock 4 4 (by decide)⟩

/-- C2 (code bug): the spec says the pipeline returns the stage-5
contrast-enhanced image to the orchestrator; on the code, a concrete run
instead raises a TypeError at that stage, because the denoised-image variable
was rebound to the CLAHE operator object and the operator is applied to
itself, so nothing is ever returned for OCR submission. -/
theorem process_raises_at_clahe_stage :
    (process_image_for_ocr houghNoneEnv (Mat.decoded 4 4 [9]) ensure_output_dir "t").2 =
      Except.error Err.claheApplyNotMat ∧
    exceptIsOk ((process_image_for_ocr houghNoneEnv (Mat.decoded 4 4 [9]) ensure_output_dir "t").2) = false :=
  ⟨rfl, rfl⟩

/-- C3: when the line-detection transform yields zero LineCandidates, the
orientation corrector skips rotation and returns its input unchanged. -/
theorem rotate_identity_when_no_lines (env : Env) (img : Mat)
    (h3 : img.channels = 3)
    (h0 : env.hough (Mat.canny (Mat.cvtGray img) 50 150 3) 1 1 200 = none) :
    rotate_image_to_center env img = Except.ok img :=
  rotate_none_eq env img h3 h0

/-- Witness for C3: a concrete blank-like image under a detector reporting no
lines comes back unchanged. -/
theorem rotate_identity_when_no_lines_witness :
    rotate_image_to_center houghNoneEnv (Mat.raw 4 4 3 0) = Except.ok (Mat.raw 4 4 3 0) :=
  rotate_identity_when_no_lines houghNoneEnv (Mat.raw 4 4 3 0) rfl rfl

/-- Counterexample to C4: on a 1-channel (grayscale) input the orientation
corrector does not return an image of identical dimensions — it raises the
cv2.error of cvtColor BGR2GRAY, which requires 3 or 4 channels. -/
theorem rotate_errors_on_grayscale_input :
    rotate_image_to_center houghNoneEnv (Mat.raw 5 7 1 0) = Except.error Err.invalidChannels ∧
    exceptIsOk (rotate_image_to_center houghNoneEnv (Mat.raw 5 7 1 0)) = false :=
  ⟨rfl, rfl⟩

/-- C4 (amended): for every 3-channel color input the orientation corrector
returns an image with width, height and channel count identical to its
input. -/
theorem rotate_preserves_dims_on_color (env : Env) (img : Mat) (h3 : img.channels = 3) :
    ∃ out, rotate_image_to_center env img = Except.ok out ∧
      out.width = img.width ∧ out.height = img.height ∧ out.channels = img.channels :=
  rotate_ok_three env img h3

/-- Witness for C4 (amended): a concrete 6x4 color image keeps its dimensions
and channel count through the corrector. -/
theorem rotate_preserves_dims_on_color_witness :
    ∃ out, rotate_image_to_center houghOneEnv (Mat.raw 6 4 3 0) = Except.ok out ∧
      out.width = (Mat.raw 6 4 3 0).width ∧ out.height = (Mat.raw 6 4 3 0).height ∧
      out.channels = (Mat.raw 6 4 3 0).channels :=
  rotate_preserves_dims_on_color houghOneEnv (Mat.raw 6 4 3 0) rfl

/-- C5: with at least one LineCandidate, the corrector warps the original
(non-grayscale) input with the rotation parameters center = integer-division
image center, angle = median of normalized angles, scale 1, output size equal
to input size, cubic interpolation and border replication; and the
getRotationMatrix2D matrix, as consumed by warpAffine's default
inverse-sampling semantics, moves image content by the rotation about that
center through the NEGATIVE of the passed angle — with (c, s) the cosine and
sine of the angle, the content map is the rotation with cosine c and sine -s,
i.e. the rotation that cancels the measured skew. -/
theorem rotate_warp_params_median_negative (env : Env) (img : Mat) (ls : List Line)
    (h3 : img.channels = 3)
    (hl : env.hough (Mat.canny (Mat.cvtGray img) 50 150 3) 1 1 200 = some ls) :
    rotate_image_to_center env img =
      Except.ok (Mat.warpAffine img
        { cx := ((img.width / 2 : Nat) : ℚ), cy := ((img.height / 2 : Nat) : ℚ)
        , angleDeg := npMedian (ls.map (fun l => l.thetaDeg - 90)), scale := 1 }
        img.width img.height INTER_CUBIC BORDER_REPLICATE) ∧
    (∀ (spec : RotSpec) (c s : ℚ) (q : ℚ × ℚ), spec.scale = 1 →
      warpContentMap (getRotationMatrix2D spec c s) q =
        rotAbout spec.cx spec.cy c (-s) q) := by
  refine ⟨rotate_some_eq env img ls h3 hl, ?_⟩
  intro spec c s q h1
  simp only [warpContentMap, applyAffine, getRotationMatrix2D, rotAbout, h1, Prod.mk.injEq]
  constructor <;> ring

/-- Witness for C5: concrete rotation call for a single detected line of
theta 95 degrees on a 6x4 color image. -/
theorem rotate_warp_params_median_negative_witness :
    (rotate_image_to_center houghOneEnv (Mat.raw 6 4 3 1) =
      Except.ok (Mat.warpAffine (Mat.raw 6 4 3 1)
        { cx := (((Mat.raw 6 4 3 1).width / 2 : Nat) : ℚ)
        , cy := (((Mat.raw 6 4 3 1).height / 2 : Nat) : ℚ)
        , angleDeg := npMedian (([{ rho := 0, thetaDeg := 95 }] : List Line).map (fun l => l.thetaDeg - 90))
        , scale := 1 }
        (Mat.raw 6 4 3 1).width (Mat.raw 6 4 3 1).height INTER_CUBIC BORDER_REPLICATE) ∧
    (∀ (spec : RotSpec) (c s : ℚ) (q : ℚ × ℚ), spec.scale = 1 →
      warpContentMap (getRotationMatrix2D spec c s) q =
        rotAbout spec.cx spec.cy c (-s) q)) :=
  rotate_warp_params_median_negative houghOneEnv (Mat.raw 6 4 3 1)
    [{ rho := 0, thetaDeg := 95 }] rfl rfl

/-- Counterexample to C6: for detected lines at 1, 2, 3 and 88 degrees from
horizontal (theta 91, 92, 93, 178 degrees), the computed correction angle is
5/2 = 2.5 degrees — np.median averages the two middle values of an
even-count set — and 2.5 is not the 2 degrees the claim states. -/
theorem median_of_four_lines_not_two :
    rotate_image_to_center houghFourEnv (Mat.raw 10 8 3 0) =
      Except.ok (Mat.warpAffine (Mat.raw 10 8 3 0)
        { cx := 5, cy := 4, angleDeg := 5 / 2, scale := 1 } 10 8 INTER_CUBIC BORDER_REPLICATE) ∧
    (5 / 2 : ℚ) ≠ 2 := by
  constructor
  · rw [rotate_some_eq houghFourEnv (Mat.raw 10 8 3 0)
        [{ rho := 1, thetaDeg := 91 }, { rho := 1, thetaDeg := 92 },
         { rho := 1, thetaDeg := 93 }, { rho := 1, thetaDeg := 178 }] rfl rfl]
    norm_num [npMedian, sortQ, insertSorted, Mat.width, Mat.height]
  · norm_num

/-- C6 (amended): the correction angle is the np-style median (mean of the
two middle values for an even count) of the normalized angles
degrees(theta) - 90; for normalized angles 1, 2, 3 and 88 it equals 5/2 =
2.5 degrees, still unskewed by the 88-degree outlier. -/
theorem rotate_angle_is_np_median (env : Env) (img : Mat) (ls : List Line)
    (h3 : img.channels = 3)
    (hl : env.hough (Mat.canny (Mat.cvtGray img) 50 150 3) 1 1 200 = some ls) :
    rotate_image_to_center env img =
      Except.ok (Mat.warpAffine img
        { cx := ((img.width / 2 : Nat) : ℚ), cy := ((img.height / 2 : Nat) : ℚ)
        , angleDeg := npMedian (ls.map (fun l => l.thetaDeg - 90)), scale := 1 }
        img.width img.height INTER_CUBIC BORDER_REPLICATE) ∧
    npMedian (([91, 92, 93, 178] : List ℚ).map (fun t => t - 90)) = 5 / 2 :=
  ⟨rotate_some_eq env img ls h3 hl, by norm_num [npMedian, sortQ, insertSorted]⟩

/-- Witness for C6 (amended): the four-line detector on a 10x8 color image. -/
theorem rotate_angle_is_np_median_witness :
    (rotate_image_to_center houghFourEnv (Mat.raw 10 8 3 1) =
      Except.ok (Mat.warpAffine (Mat.raw 10 8 3 1)
        { cx := (((Mat.raw 10 8 3 1).width / 2 : Nat) : ℚ)
        , cy := (((Mat.raw 10 8 3 1).height / 2 : Nat) : ℚ)
        , angleDeg := npMedian
            (([{ rho := 1, thetaDeg := 91 }, { rho := 1, thetaDeg := 92 },
               { rho := 1, thetaDeg := 93 }, { rho := 1, thetaDeg := 178 }] : List Line).map
              (fun l => l.thetaDeg - 90))
        , scale := 1 }
        (Mat.raw 10 8 3 1).width (Mat.raw 10 8 3 1).height INTER_CUBIC BORDER_REPLICATE) ∧
    npMedian (([91, 92, 93, 178] : List ℚ).map (fun t => t - 90)) = 5 / 2) :=
  rotate_angle_is_np_median houghFourEnv (Mat.raw 10 8 3 1)
    [{ rho := 1, thetaDeg := 91 }, { rho := 1, thetaDeg := 92 },
     { rho := 1, thetaDeg := 93 }, { rho := 1, thetaDeg := 178 }] rfl rfl

/-- C7: on malformed input bytes (bytes cv2.imdecode rejects), the
orchestrator fails — the failed decode surfaces as the raise at the write of
the None image — and zero pipeline artifacts are produced. -/
theorem download_decode_failure_zero_artifacts (env : Env) (content : List Nat)
    (now : Clock) (hd : env.decode content = none) :
    download_and_preprocess_image env content now = ([], Except.error Err.imwriteNotMat) :=
  download_none_eq env content now hd

/-- Witness for C7: the empty byte list does not decode, and the concrete run
produces no artifacts and an error. -/
theorem download_decode_failure_zero_artifacts_witness :
    download_and_preprocess_image houghNoneEnv [] demoClock = ([], Except.error Err.imwriteNotMat) :=
  download_decode_failure_zero_artifacts houghNoneEnv [] demoClock (by decide)

/-- C8: every exception of the preprocessing pipeline is caught at the
try/except around the orchestrator call in handle_photo and collapses to the
single fallback behaviour of submitting the original photo URL to the OCR
service; a normal return is submitted as the processed byte stream. -/
theorem handle_photo_fallback_on_error (env : Env) (photo_url : String)
    (content : List Nat) (now : Clock) :
    (∀ e : Err, (download_and_preprocess_image env content now).2 = Except.error e →
      handle_photo env photo_url content now = OcrRequest.readUrl photo_url) ∧
    (∀ buf : List Nat, (download_and_preprocess_image env content now).2 = Except.ok buf →
      handle_photo env photo_url content now = OcrRequest.readInStream buf) := by
  constructor
  · intro e he
    simp [handle_photo, he]
  · intro buf hb
    simp [handle_photo, hb]

/-- Witness for C8: a concrete failing preprocessing run makes handle_photo
fall back to the original URL. -/
theorem handle_photo_fallback_on_error_witness :
    handle_photo houghNoneEnv "photo-url" [7] demoClock = OcrRequest.readUrl "photo-url" :=
  (handle_photo_fallback_on_error houghNoneEnv "photo-url" [7] demoClock).1
    Err.claheApplyNotMat rfl

/-- Counterexample to C9: in a concrete run the persisted stage labels do not
range exactly over the nine labels of the claim — 4_enhanced (and everything
after it) is never written, because the pipeline raises at the
contrast-enhancement stage. -/
theorem run_labels_missing_enhanced :
    (download_and_preprocess_image houghNoneEnv [2] demoClock2).1.map (fun a => a.label) =
      ["original", "1_gray", "21_threshold", "2_threshold", "3_denoised"] ∧
    ¬ ("4_enhanced" ∈
        (download_and_preprocess_image houghNoneEnv [2] demoClock2).1.map (fun a => a.label)) :=
  ⟨rfl, by decide⟩

/-- C9 (amended): every artifact of a run is written to processed_images with
file name timestamp_label.png, where the timestamp has the YYYYMMDD_HHMMSS
shape and the label is drawn from the nine stage labels; the labels actually
written in a run are exactly original, 1_gray, 21_threshold, 2_threshold and
3_denoised, the pipeline raising before the remaining four. -/
theorem artifact_naming_scheme (env : Env) (content : List Nat) (now : Clock)
    (w h : Nat) (hd : env.decode content = some (w, h)) :
    (download_and_preprocess_image env content now).1.map (fun a => a.label) = writtenLabels ∧
    (∀ a ∈ (download_and_preprocess_image env content now).1,
      a.dir = "processed_images" ∧ a.ts = strftime_Ymd_HMS now ∧
      a.filename = strftime_Ymd_HMS now ++ "_" ++ a.label ++ ".png" ∧
      a.label ∈ stageLabels) ∧
    timestampFormatOk (strftime_Ymd_HMS now) := by
  obtain ⟨r, _, hdl⟩ := download_shape env content now w h hd
  rw [hdl]
  refine ⟨rfl, ?_, strftime_format_ok now⟩
  intro a ha
  simp only [List.mem_cons, List.not_mem_nil, or_false] at ha
  rcases ha with rfl | rfl | rfl | rfl | rfl
  · exact ⟨rfl, rfl, rfl, show "original" ∈ stageLabels by decide⟩
  · exact ⟨rfl, rfl, rfl, show "1_gray" ∈ stageLabels by decide⟩
  · exact ⟨rfl, rfl, rfl, show "21_threshold" ∈ stageLabels by decide⟩
  · exact ⟨rfl, rfl, rfl, show "2_threshold" ∈ stageLabels by decide⟩
  · exact ⟨rfl, rfl, rfl, show "3_denoised" ∈ stageLabels by decide⟩

/-- Witness for C9 (amended): the naming properties at a concrete run. -/
theorem artifact_naming_scheme_witness :
    ((download_and_preprocess_image houghNoneEnv [1] demoClock2).1.map (fun a => a.label) =
      writtenLabels ∧
    (∀ a ∈ (download_and_preprocess_image houghNoneEnv [1] demoClock2).1,
      a.dir = "processed_images" ∧ a.ts = strftime_Ymd_HMS demoClock2 ∧
      a.filename = strftime_Ymd_HMS demoClock2 ++ "_" ++ a.label ++ ".png" ∧
      a.label ∈ stageLabels) ∧
    timestampFormatOk (strftime_Ymd_HMS demoClock2)) :=
  artifact_naming_scheme houghNoneEnv [1] demoClock2 4 4 (by decide)

/-- C10: the pipeline is deterministic — two runs in the same environment on
equal input bytes produce equal artifact sets up to the filename timestamp
(the clocks of the two runs may even differ, since the timestamp enters only
the artifact names) and equal returned buffers (here: equal outcomes, both
runs raising identically when the pipeline raises). -/
theorem pipeline_deterministic (env : Env) (c1 c2 : List Nat) (n1 n2 : Clock)
    (hb : c1 = c2) :
    (download_and_preprocess_image env c1 n1).1.map stripTimestamp =
      (download_and_preprocess_image env c2 n2).1.map stripTimestamp ∧
    (download_and_preprocess_image env c1 n1).2 =
      (download_and_preprocess_image env c2 n2).2 := by
  subst hb
  cases hd : env.decode c1 with
  | none =>
    rw [download_none_eq env c1 n1 hd, download_none_eq env c1 n2 hd]
    exact ⟨rfl, rfl⟩
  | some wh =>
    obtain ⟨r1, hr1, hdl1⟩ := download_shape env c1 n1 wh.1 wh.2 (by rw [hd])
    obtain ⟨r2, hr2, hdl2⟩ := download_shape env c1 n2 wh.1 wh.2 (by rw [hd])
    rw [hr1] at hr2
    injection hr2 with h12
    subst h12
    rw [hdl1, hdl2]
    exact ⟨rfl, rfl⟩

/-- Witness for C10: two concrete runs on the same bytes and clock agree. -/
theorem pipeline_deterministic_witness :
    ((download_and_preprocess_image houghOneEnv [3] demoClock).1.map stripTimestamp =
      (download_and_preprocess_image houghOneEnv [3] demoClock).1.map stripTimestamp ∧
    (download_and_preprocess_image houghOneEnv [3] demoClock).2 =
      (download_and_preprocess_image houghOneEnv [3] demoClock).2) :=
  pipeline_deterministic houghOneEnv [3] [3] demoClock demoClock rfl
